import Mathlib

/-!
Verification of the Auto_Church core against its specification.

The development shallowly embeds the Rust sources:
* `src/crates/church-ledger/src/deedevent.rs` (namespace `ChurchLedger`),
* `src/church_of_fear_ledger/src/{deed,validator}.rs` (namespace `FearLedger`),
* `src/crates/eco-fairness-guard/src/lib.rs` (namespace `EcoGuard`).

Machine reals (`f64`) are modelled by `ℚ`: every constant in the sources is a
short decimal literal and every operation used by the claims is a comparison
or an exact small-magnitude addition, so the rational model is faithful for
the properties considered here.  The SHA-256 digest function is kept as an
explicit parameter `hash : String → String`: all chain/canonicalisation
claims are structural in the digest, so they are stated for an arbitrary
digest function and instantiated at concrete ones in witnesses.
-/

/-- Minimal model of a `serde_json::Value`.  `serde_json`'s default map type
is a `BTreeMap`, so an object value always stores its fields sorted by key;
object lists in this model are kept in that stored (sorted) order. -/
inductive Json where
  | null : Json
  | bool (b : Bool) : Json
  | num (n : Int) : Json
  | str (s : String) : Json
  | arr (xs : List Json) : Json
  | obj (fields : List (String × Json)) : Json

/-- Lower-case hexadecimal digit. -/
def hexDigitChar (n : Nat) : Char :=
  if n < 10 then Char.ofNat (48 + n) else Char.ofNat (87 + n)

/-- Four lower-case hex digits, as in `serde_json`'s `\u00XX` escapes. -/
def hex4 (n : Nat) : String :=
  String.mk [hexDigitChar (n / 4096 % 16), hexDigitChar (n / 256 % 16),
             hexDigitChar (n / 16 % 16), hexDigitChar (n % 16)]

/-- JSON string-character escaping as performed by `serde_json`. -/
def escapeChar (c : Char) : String :=
  if c = '"' then "\\\""
  else if c = '\\' then "\\\\"
  else if c = '\n' then "\\n"
  else if c = '\r' then "\\r"
  else if c = '\t' then "\\t"
  else if c = '\x08' then "\\b"
  else if c = '\x0c' then "\\f"
  else if c.toNat < 32 then "\\u" ++ hex4 c.toNat
  else String.singleton c

/-- Rendering of a JSON string literal (quotes plus escaped body). -/
def renderJsonString (s : String) : String :=
  "\"" ++ String.join (s.data.map escapeChar) ++ "\""

mutual

/-- Compact rendering of a `Json` value, as `serde_json::to_string`. -/
def renderJson : Json → String
  | Json.null => "null"
  | Json.bool b => if b then "true" else "false"
  | Json.num n => toString n
  | Json.str s => renderJsonString s
  | Json.arr xs => "[" ++ renderArr xs ++ "]"
  | Json.obj fs => "\x7b" ++ renderFields fs ++ "\x7d"

/-- Comma-separated rendering of array elements. -/
def renderArr : List Json → String
  | [] => ""
  | [x] => renderJson x
  | x :: y :: rest => renderJson x ++ "," ++ renderArr (y :: rest)

/-- Comma-separated rendering of object fields, in stored order. -/
def renderFields : List (String × Json) → String
  | [] => ""
  | [(k, v)] => renderJsonString k ++ ":" ++ renderJson v
  | (k, v) :: y :: rest =>
      renderJsonString k ++ ":" ++ renderJson v ++ "," ++ renderFields (y :: rest)

end

/-- String list to JSON array of strings. -/
def strArr (xs : List String) : Json :=
  Json.arr (xs.map Json.str)

/-- Insert one keyed field into a key-sorted field list. -/
def insertByKey (x : String × Json) : List (String × Json) → List (String × Json)
  | [] => [x]
  | y :: ys => if y.1 < x.1 then y :: insertByKey x ys else x :: y :: ys

/-- Sort a field list by key (models the `sort_by` over map entries in
`canonical_json`, and the `BTreeMap` key order of `serde_json`). -/
def sortByKey (l : List (String × Json)) : List (String × Json) :=
  l.foldr insertByKey []

/-- Genesis sentinel: `"0".repeat(64)` in the sources. -/
def genesisSentinel : String :=
  String.mk (List.replicate 64 '0')

instance {ε α : Type} [DecidableEq ε] [DecidableEq α] : DecidableEq (Except ε α) :=
  fun a b =>
  match a, b with
  | Except.ok x, Except.ok y =>
    match decEq x y with
    | isTrue h => isTrue (by rw [h])
    | isFalse h => isFalse (by intro hc; cases hc; exact h rfl)
  | Except.error x, Except.error y =>
    match decEq x y with
    | isTrue h => isTrue (by rw [h])
    | isFalse h => isFalse (by intro hc; cases hc; exact h rfl)
  | Except.ok _, Except.error _ => isFalse (by intro hc; cases hc)
  | Except.error _, Except.ok _ => isFalse (by intro hc; cases hc)

namespace ChurchLedger

/-- `DeedEvent` from `src/crates/church-ledger/src/deedevent.rs`. -/
structure DeedEvent where
  event_id : String
  timestamp : Int
  prev_hash : String
  self_hash : String
  actor_id : String
  target_ids : List String
  deed_type : String
  tags : List String
  context_json : Json
  ethics_flags : List String
  life_harm_flag : Bool

/-- `DeedEvent::canonical_json`: every field except `self_hash`, inserted
into a map and serialised with keys sorted lexicographically. -/
def canonical_json (e : DeedEvent) : String :=
  renderJson (Json.obj (sortByKey
    [("event_id", Json.str e.event_id),
     ("timestamp", Json.num e.timestamp),
     ("prev_hash", Json.str e.prev_hash),
     ("actor_id", Json.str e.actor_id),
     ("target_ids", strArr e.target_ids),
     ("deed_type", Json.str e.deed_type),
     ("tags", strArr e.tags),
     ("context_json", e.context_json),
     ("ethics_flags", strArr e.ethics_flags),
     ("life_harm_flag", Json.bool e.life_harm_flag)]))

/-- `DeedEvent::compute_self_hash`, with the SHA-256 hex digest abstracted
as the parameter `hash`. -/
def compute_self_hash (hash : String → String) (e : DeedEvent) : String :=
  hash (canonical_json e)

/-- The loop body of `validate_ledger`: walk the records, carrying the
expected previous hash (initially the genesis sentinel). -/
def validate_ledger_from (hash : String → String) : String → List DeedEvent → Bool
  | _, [] => true
  | prev, e :: rest =>
    if e.prev_hash ≠ prev then false
    else if compute_self_hash hash e ≠ e.self_hash then false
    else validate_ledger_from hash e.self_hash rest

/-- `validate_ledger` over an in-memory record sequence (the source streams
the same sequence from a JSONL file, skipping blank lines). -/
def validate_ledger (hash : String → String) (events : List DeedEvent) : Bool :=
  validate_ledger_from hash genesisSentinel events

/-- Spec-side chain predicate, following the claim's words: every record's
`prev_hash` equals its predecessor's `self_hash` (genesis sentinel for the
first record) and every `self_hash` equals the digest of the canonical
form. -/
def chain_spec (hash : String → String) (events : List DeedEvent) : Prop :=
  (∀ p ∈ List.zip events (genesisSentinel :: events.map (fun e => e.self_hash)),
      p.1.prev_hash = p.2) ∧
  (∀ e ∈ events, e.self_hash = hash (canonical_json e))

/-- `DeedEvent::moral_position_score` (`f64` constants modelled in `ℚ`). -/
def moral_position_score (e : DeedEvent) : ℚ :=
  let base : ℚ := if e.life_harm_flag then 0 else 85/100
  let ethics_penalty : ℚ := (e.ethics_flags.length : ℚ) * (15/100)
  let good_tags : ℚ :=
    ((e.tags.filter fun t =>
        t == "ecological_sustainability" || t == "homelessness_relief" ||
        t == "math_science_education").length : ℚ) * (8/100)
  max 0 (min 1 (base - ethics_penalty + good_tags))

end ChurchLedger

namespace FearLedger

/-- `DeedEvent` from `src/church_of_fear_ledger/src/deed.rs` (the `Uuid`
`event_id` is modelled as its string form). -/
structure DeedEvent where
  event_id : String
  timestamp : Int
  prev_hash : String
  self_hash : String
  actor_id : String
  target_ids : List String
  deed_type : String
  tags : List String
  context_json : Json
  ethics_flags : List String
  life_harm_flag : Bool

/-- `serde_json::to_string(self)` for the derived `Serialize`: all eleven
fields, `self_hash` included, in declaration order. -/
def serde_json_string (e : DeedEvent) : String :=
  renderJson (Json.obj
    [("event_id", Json.str e.event_id),
     ("timestamp", Json.num e.timestamp),
     ("prev_hash", Json.str e.prev_hash),
     ("self_hash", Json.str e.self_hash),
     ("actor_id", Json.str e.actor_id),
     ("target_ids", strArr e.target_ids),
     ("deed_type", Json.str e.deed_type),
     ("tags", strArr e.tags),
     ("context_json", e.context_json),
     ("ethics_flags", strArr e.ethics_flags),
     ("life_harm_flag", Json.bool e.life_harm_flag)])

/-- `DeedEvent::compute_self_hash` of this crate: digest of the full
serialisation (which includes `self_hash`). -/
def compute_self_hash (hash : String → String) (e : DeedEvent) : String :=
  hash (serde_json_string e)

/-- `CHURCH_RECOMMEND_PER_GOOD_DEED` from `lib.rs`. -/
def CHURCH_RECOMMEND_PER_GOOD_DEED : Nat := 1

/-- `DeedEvent::church_recommendation`. -/
def church_recommendation (e : DeedEvent) : Nat :=
  if e.life_harm_flag then 0
  else if e.ethics_flags ≠ [] then 0
  else if e.deed_type = "ecological_sustainability" ∨
          e.deed_type = "homelessness_relief" ∨
          e.deed_type = "math_science_education" then
    CHURCH_RECOMMEND_PER_GOOD_DEED
  else 0

/-- `ValidationError` from `src/church_of_fear_ledger/src/validator.rs`
(the `Io` and `Serialization` payloads are modelled as message strings). -/
inductive ValidationError where
  | HashMismatch (expected actual : String) : ValidationError
  | LifeHarm : ValidationError
  | EthicsViolation (flags : List String) : ValidationError
  | Io (msg : String) : ValidationError
  | Serialization (msg : String) : ValidationError
deriving DecidableEq

/-- `LedgerValidator::validate_new_event`. -/
def validate_new_event (e : DeedEvent) (expected_prev_hash : String) :
    Except ValidationError Unit :=
  if e.life_harm_flag then Except.error ValidationError.LifeHarm
  else if e.ethics_flags ≠ [] then
    Except.error (ValidationError.EthicsViolation e.ethics_flags)
  else if expected_prev_hash ≠ "genesis" ∧ e.prev_hash ≠ expected_prev_hash then
    Except.error (ValidationError.HashMismatch expected_prev_hash e.prev_hash)
  else Except.ok ()

end FearLedger

namespace EcoGuard

/-- `EcoEnvelope` from `src/crates/eco-fairness-guard/src/lib.rs`
(`f64` dimensions modelled in `ℚ`). -/
structure EcoEnvelope where
  max_power_watts : ℚ
  max_daily_kwh : ℚ
  max_heat_output : ℚ
  max_co2e_kg : ℚ
  max_water_liters : ℚ
deriving DecidableEq

/-- `EcoEnvelope::default`. -/
def EcoEnvelope.default : EcoEnvelope :=
  { max_power_watts := 850
    max_daily_kwh := 18
    max_heat_output := 45
    max_co2e_kg := 5/2
    max_water_liters := 15 }

/-- `EcoFairnessSpec` (the two `HashMap`s and the route `Vec` are modelled
as association lists / a list). -/
structure EcoFairnessSpec where
  global_roh_ceiling : ℚ
  global_envelope : EcoEnvelope
  per_route_budgets : List (String × EcoEnvelope)
  per_subject_minimums : List (String × EcoEnvelope)
  altar_routes : List String

/-- `EcoFairnessSpec::default`. -/
def EcoFairnessSpec.default : EcoFairnessSpec :=
  { global_roh_ceiling := 30/100
    global_envelope := EcoEnvelope.default
    per_route_budgets :=
      [("altar", { EcoEnvelope.default with max_power_watts := 420, max_daily_kwh := 8 })]
    per_subject_minimums := []
    altar_routes := ["altar", "donation", "lesson"] }

/-- `GuardError` from the same crate (message payloads kept as in source;
the `f32` RoH payloads are modelled in `ℚ`). -/
inductive GuardError where
  | BudgetExceeded (route resource : String) (demand limit : ℚ) : GuardError
  | BelowMinimum (subject : String) : GuardError
  | RohCeilingBreach (current_roh ceiling : ℚ) : GuardError
  | ViabilityFailure (reason : String) : GuardError
  | AltarRequiresEvolve : GuardError
deriving DecidableEq

/-- Association-list lookup, modelling `HashMap::get` / `DashMap` lookup. -/
def lookupAssoc {α : Type} (k : String) : List (String × α) → Option α
  | [] => none
  | (k', v) :: rest => if k' = k then some v else lookupAssoc k rest

/-- Replace the entry for `k` (insert at the end when absent), modelling an
in-place write through a map entry. -/
def setEntry {α : Type} (k : String) (v : α) : List (String × α) → List (String × α)
  | [] => [(k, v)]
  | (k', v') :: rest => if k' = k then (k, v) :: rest else (k', v') :: setEntry k v rest

/-- ASCII lower-casing of one character. -/
def lowerAsciiChar (c : Char) : Char :=
  if 'A' ≤ c ∧ c ≤ 'Z' then Char.ofNat (c.toNat + 32) else c

/-- Models `str::to_lowercase` on the ASCII route identifiers used here. -/
def toLowerAscii (s : String) : String :=
  String.mk (s.data.map lowerAsciiChar)

/-- Models `str::eq_ignore_ascii_case`. -/
def eqIgnoreAsciiCase (a b : String) : Bool :=
  toLowerAscii a == toLowerAscii b

/-- The per-subject usage ledger (`CURRENT_USAGE : DashMap<String, EcoEnvelope>`),
modelled as an association list threaded through each call. -/
abbrev UsageMap : Type := List (String × EcoEnvelope)

/-- Dimension-wise envelope addition (the five `+=` lines of step 6). -/
def addEnv (u d : EcoEnvelope) : EcoEnvelope :=
  { max_power_watts := u.max_power_watts + d.max_power_watts
    max_daily_kwh := u.max_daily_kwh + d.max_daily_kwh
    max_heat_output := u.max_heat_output + d.max_heat_output
    max_co2e_kg := u.max_co2e_kg + d.max_co2e_kg
    max_water_liters := u.max_water_liters + d.max_water_liters }

/-- The effective ceiling of step 2: the route-specific budget if configured
for the lower-cased route key, else the global envelope. -/
def effectiveEnvelope (spec : EcoFairnessSpec) (route : String) : EcoEnvelope :=
  (lookupAssoc (toLowerAscii route) spec.per_route_budgets).getD spec.global_envelope

/-- The effect of `CURRENT_USAGE.entry(subject).or_insert_with(EcoEnvelope::default)`
on the map: a vacant entry is filled with the default envelope, an occupied
entry is untouched. -/
def entryInit (subject : String) (m : UsageMap) : UsageMap :=
  match lookupAssoc subject m with
  | none => setEntry subject EcoEnvelope.default m
  | some _ => m

/-- `GraceEquityKernel::check_route`.  The kernel's `RohModel::current_value`
is the argument `roh` and the `ViabilityKernel::is_viable` predicate is the
argument `viable`; the global `CURRENT_USAGE` map is threaded explicitly as
`m`, and the result pairs the source's `Result` with the updated map. -/
def check_route (spec : EcoFairnessSpec) (roh : ℚ) (viable : EcoEnvelope → Bool)
    (m : UsageMap) (subject route : String) (demand : EcoEnvelope) :
    Except GuardError Unit × UsageMap :=
  if roh > spec.global_roh_ceiling then
    (Except.error (GuardError.RohCeilingBreach roh spec.global_roh_ceiling), m)
  else
    let envelope := effectiveEnvelope spec route
    if demand.max_power_watts > envelope.max_power_watts then
      (Except.error (GuardError.BudgetExceeded route "power"
        demand.max_power_watts envelope.max_power_watts), m)
    else if demand.max_daily_kwh > envelope.max_daily_kwh then
      (Except.error (GuardError.BudgetExceeded route "kWh"
        demand.max_daily_kwh envelope.max_daily_kwh), m)
    else if demand.max_co2e_kg > envelope.max_co2e_kg then
      (Except.error (GuardError.BudgetExceeded route "CO2e_kg"
        demand.max_co2e_kg envelope.max_co2e_kg), m)
    else if spec.altar_routes.any (fun r => eqIgnoreAsciiCase r route) then
      (Except.error GuardError.AltarRequiresEvolve, m)
    else
      let usage := (lookupAssoc subject m).getD EcoEnvelope.default
      let m₁ := entryInit subject m
      match lookupAssoc subject spec.per_subject_minimums with
      | some minimum =>
        if usage.max_daily_kwh + demand.max_daily_kwh < minimum.max_daily_kwh then
          (Except.error (GuardError.BelowMinimum subject), m₁)
        else if ¬ viable demand then
          (Except.error (GuardError.ViabilityFailure
            "Eco/compute demand outside Tsafe viability kernel"), m₁)
        else (Except.ok (), setEntry subject (addEnv usage demand) m₁)
      | none =>
        if ¬ viable demand then
          (Except.error (GuardError.ViabilityFailure
            "Eco/compute demand outside Tsafe viability kernel"), m₁)
        else (Except.ok (), setEntry subject (addEnv usage demand) m₁)

/-- A sequence of `check_route` calls for one subject: returns the final
usage map and the list of per-call results. -/
def runCallsFor (spec : EcoFairnessSpec) (roh : ℚ) (viable : EcoEnvelope → Bool)
    (subject : String) :
    UsageMap → List (String × EcoEnvelope) → UsageMap × List (Except GuardError Unit)
  | m, [] => (m, [])
  | m, c :: cs =>
    let p := check_route spec roh viable m subject c.1 c.2
    let q := runCallsFor spec roh viable subject p.2 cs
    (q.1, p.1 :: q.2)

/-- The all-zero envelope (identity of `addEnv`). -/
def zeroEnv : EcoEnvelope :=
  { max_power_watts := 0, max_daily_kwh := 0, max_heat_output := 0,
    max_co2e_kg := 0, max_water_liters := 0 }

/-- Dimension-wise sum of the demands of exactly the `Ok` calls. -/
def okSum : List (String × EcoEnvelope) → List (Except GuardError Unit) → EcoEnvelope
  | [], _ => zeroEnv
  | _, [] => zeroEnv
  | c :: cs, r :: rs =>
    if r = Except.ok () then addEnv c.2 (okSum cs rs) else okSum cs rs

end EcoGuard

/-- A well-formed sample record of the church-ledger crate. -/
def sampleDeed : ChurchLedger.DeedEvent :=
  { event_id := "evt-1", timestamp := 1700000000, prev_hash := "p",
    self_hash := "h", actor_id := "user-xboxtj", target_ids := ["eco-project-1"],
    deed_type := "ecological_sustainability", tags := ["tree-of-life"],
    context_json := Json.obj [("project", Json.str "arizona-desert-restoration"),
                             ("volunteers", Json.num 12)],
    ethics_flags := [], life_harm_flag := false }
/-- The same record with a different `self_hash` only. -/
def sampleDeedAlt : ChurchLedger.DeedEvent :=
  { sampleDeed with self_hash := "h2" }
/-- A well-formed sample record of the `church_of_fear_ledger` crate. -/
def fearDeed : FearLedger.DeedEvent :=
  { event_id := "uuid-1", timestamp := 1700000000, prev_hash := "p",
    self_hash := "a", actor_id := "actor-1", target_ids := [],
    deed_type := "ecological_sustainability", tags := [],
    context_json := Json.obj [("evidence_url", Json.str "https://example.org")],
    ethics_flags := [], life_harm_flag := false }
/-- The same record with a different `self_hash` only. -/
def fearDeedAlt : FearLedger.DeedEvent :=
  { fearDeed with self_hash := "b" }
/-- A record with one ethics flag and no harm flag (church-ledger crate). -/
def ethicsFlaggedDeed : ChurchLedger.DeedEvent :=
  { event_id := "evt-2", timestamp := 0, prev_hash := "p", self_hash := "h",
    actor_id := "a", target_ids := [], deed_type := "ecological_sustainability",
    tags := [], context_json := Json.obj [],
    ethics_flags := ["RoH_CEILING_EXCEEDED"], life_harm_flag := false }
/-- A harm-flagged record of the `church_of_fear_ledger` crate, with a
rewarded `deed_type` and tags. -/
def harmDeed : FearLedger.DeedEvent :=
  { event_id := "uuid-2", timestamp := 0, prev_hash := "p", self_hash := "h",
    actor_id := "a", target_ids := [], deed_type := "ecological_sustainability",
    tags := ["reforestation"], context_json := Json.obj [],
    ethics_flags := [], life_harm_flag := true }
/-- A record whose `self_hash` matches nothing, with a matching
`prev_hash`. -/
def fearDeedBadHash : FearLedger.DeedEvent :=
  { fearDeed with self_hash := "x" }
/-- A minimal policy: defaults for the global envelope, no route budgets, no
minimums, no governed routes. -/
def simpleSpec : EcoGuard.EcoFairnessSpec :=
  { global_roh_ceiling := 30/100
    global_envelope := EcoGuard.EcoEnvelope.default
    per_route_budgets := []
    per_subject_minimums := []
    altar_routes := [] }
/-- A demand that exceeds the default heat and water ceilings only. -/
def heavyHeatDemand : EcoGuard.EcoEnvelope :=
  { max_power_watts := 0, max_daily_kwh := 0, max_heat_output := 1000,
    max_co2e_kg := 0, max_water_liters := 1000 }
/-- A demand of 900 W and nothing else. -/
def powerDemand900 : EcoGuard.EcoEnvelope :=
  { max_power_watts := 900, max_daily_kwh := 0, max_heat_output := 0,
    max_co2e_kg := 0, max_water_liters := 0 }
/-- A demand of 2 kWh and nothing else. -/
def kwhDemand2 : EcoGuard.EcoEnvelope :=
  { max_power_watts := 0, max_daily_kwh := 2, max_heat_output := 0,
    max_co2e_kg := 0, max_water_liters := 0 }
/-- A 5 kWh per-subject minimum guarantee. -/
def minGuarantee5 : EcoGuard.EcoEnvelope :=
  { max_power_watts := 0, max_daily_kwh := 5, max_heat_output := 0,
    max_co2e_kg := 0, max_water_liters := 0 }
/-- `simpleSpec` with a 5 kWh minimum guarantee for subject `"s"`. -/
def guaranteeSpec : EcoGuard.EcoFairnessSpec :=
  { simpleSpec with per_subject_minimums := [("s", minGuarantee5)] }
set_option maxRecDepth 10000

namespace EcoGuard

lemma lookup_setEntry_self {α : Type} (k : String) (v : α) (m : List (String × α)) :
    lookupAssoc k (setEntry k v m) = some v := by
  induction m with
  | nil => simp [setEntry, lookupAssoc]
  | cons p rest ih =>
    by_cases h : p.1 = k
    · simp [setEntry, lookupAssoc, h]
    · simpa [setEntry, lookupAssoc, h] using ih

lemma addEnv_zeroEnv (u : EcoEnvelope) : addEnv u zeroEnv = u := by
  cases u
  simp [addEnv, zeroEnv]

lemma addEnv_assoc (u d s : EcoEnvelope) :
    addEnv (addEnv u d) s = addEnv u (addEnv d s) := by
  simp [addEnv, add_assoc]

lemma cr_roh_eq (spec : EcoFairnessSpec) (roh : ℚ) (viable : EcoEnvelope → Bool)
    (m : UsageMap) (subject route : String) (demand : EcoEnvelope)
    (h1 : roh > spec.global_roh_ceiling) :
    check_route spec roh viable m subject route demand =
      (Except.error (GuardError.RohCeilingBreach roh spec.global_roh_ceiling), m) := by
  simp [check_route, h1]

lemma cr_power_eq (spec : EcoFairnessSpec) (roh : ℚ) (viable : EcoEnvelope → Bool)
    (m : UsageMap) (subject route : String) (demand : EcoEnvelope)
    (h1 : ¬ roh > spec.global_roh_ceiling)
    (h2 : demand.max_power_watts > (effectiveEnvelope spec route).max_power_watts) :
    check_route spec roh viable m subject route demand =
      (Except.error (GuardError.BudgetExceeded route "power"
        demand.max_power_watts (effectiveEnvelope spec route).max_power_watts), m) := by
  simp [check_route, h1, h2]

lemma cr_kwh_eq (spec : EcoFairnessSpec) (roh : ℚ) (viable : EcoEnvelope → Bool)
    (m : UsageMap) (subject route : String) (demand : EcoEnvelope)
    (h1 : ¬ roh > spec.global_roh_ceiling)
    (h2 : ¬ demand.max_power_watts > (effectiveEnvelope spec route).max_power_watts)
    (h3 : demand.max_daily_kwh > (effectiveEnvelope spec route).max_daily_kwh) :
    check_route spec roh viable m subject route demand =
      (Except.error (GuardError.BudgetExceeded route "kWh"
        demand.max_daily_kwh (effectiveEnvelope spec route).max_daily_kwh), m) := by
  simp [check_route, h1, h2, h3]

lemma cr_co2e_eq (spec : EcoFairnessSpec) (roh : ℚ) (viable : EcoEnvelope → Bool)
    (m : UsageMap) (subject route : String) (demand : EcoEnvelope)
    (h1 : ¬ roh > spec.global_roh_ceiling)
    (h2 : ¬ demand.max_power_watts > (effectiveEnvelope spec route).max_power_watts)
    (h3 : ¬ demand.max_daily_kwh > (effectiveEnvelope spec route).max_daily_kwh)
    (h4 : demand.max_co2e_kg > (effectiveEnvelope spec route).max_co2e_kg) :
    check_route spec roh viable m subject route demand =
      (Except.error (GuardError.BudgetExceeded route "CO2e_kg"
        demand.max_co2e_kg (effectiveEnvelope spec route).max_co2e_kg), m) := by
  simp [check_route, h1, h2, h3, h4]

lemma cr_altar_eq (spec : EcoFairnessSpec) (roh : ℚ) (viable : EcoEnvelope → Bool)
    (m : UsageMap) (subject route : String) (demand : EcoEnvelope)
    (h1 : ¬ roh > spec.global_roh_ceiling)
    (h2 : ¬ demand.max_power_watts > (effectiveEnvelope spec route).max_power_watts)
    (h3 : ¬ demand.max_daily_kwh > (effectiveEnvelope spec route).max_daily_kwh)
    (h4 : ¬ demand.max_co2e_kg > (effectiveEnvelope spec route).max_co2e_kg)
    (h5 : spec.altar_routes.any (fun r => eqIgnoreAsciiCase r route) = true) :
    check_route spec roh viable m subject route demand =
      (Except.error GuardError.AltarRequiresEvolve, m) := by
  simp [check_route, h1, h2, h3, h4, h5]

lemma cr_min_eq (spec : EcoFairnessSpec) (roh : ℚ) (viable : EcoEnvelope → Bool)
    (m : UsageMap) (subject route : String) (demand : EcoEnvelope) (minimum : EcoEnvelope)
    (h1 : ¬ roh > spec.global_roh_ceiling)
    (h2 : ¬ demand.max_power_watts > (effectiveEnvelope spec route).max_power_watts)
    (h3 : ¬ demand.max_daily_kwh > (effectiveEnvelope spec route).max_daily_kwh)
    (h4 : ¬ demand.max_co2e_kg > (effectiveEnvelope spec route).max_co2e_kg)
    (h5 : spec.altar_routes.any (fun r => eqIgnoreAsciiCase r route) = false)
    (hm : lookupAssoc subject spec.per_subject_minimums = some minimum)
    (hfail : ((lookupAssoc subject m).getD EcoEnvelope.default).max_daily_kwh +
        demand.max_daily_kwh < minimum.max_daily_kwh) :
    check_route spec roh viable m subject route demand =
      (Except.error (GuardError.BelowMinimum subject), entryInit subject m) := by
  simp [check_route, h1, h2, h3, h4, h5, hm, hfail]

lemma cr_viab_eq (spec : EcoFairnessSpec) (roh : ℚ) (viable : EcoEnvelope → Bool)
    (m : UsageMap) (subject route : String) (demand : EcoEnvelope)
    (h1 : ¬ roh > spec.global_roh_ceiling)
    (h2 : ¬ demand.max_power_watts > (effectiveEnvelope spec route).max_power_watts)
    (h3 : ¬ demand.max_daily_kwh > (effectiveEnvelope spec route).max_daily_kwh)
    (h4 : ¬ demand.max_co2e_kg > (effectiveEnvelope spec route).max_co2e_kg)
    (h5 : spec.altar_routes.any (fun r => eqIgnoreAsciiCase r route) = false)
    (hmin : ∀ minimum, lookupAssoc subject spec.per_subject_minimums = some minimum →
      ¬ ((lookupAssoc subject m).getD EcoEnvelope.default).max_daily_kwh +
          demand.max_daily_kwh < minimum.max_daily_kwh)
    (hv : viable demand = false) :
    check_route spec roh viable m subject route demand =
      (Except.error (GuardError.ViabilityFailure
        "Eco/compute demand outside Tsafe viability kernel"), entryInit subject m) := by
  cases hm : lookupAssoc subject spec.per_subject_minimums with
  | none => simp [check_route, h1, h2, h3, h4, h5, hm, hv]
  | some minimum => simp [check_route, h1, h2, h3, h4, h5, hm, hv, hmin minimum hm]

lemma cr_ok_eq (spec : EcoFairnessSpec) (roh : ℚ) (viable : EcoEnvelope → Bool)
    (m : UsageMap) (subject route : String) (demand : EcoEnvelope)
    (h1 : ¬ roh > spec.global_roh_ceiling)
    (h2 : ¬ demand.max_power_watts > (effectiveEnvelope spec route).max_power_watts)
    (h3 : ¬ demand.max_daily_kwh > (effectiveEnvelope spec route).max_daily_kwh)
    (h4 : ¬ demand.max_co2e_kg > (effectiveEnvelope spec route).max_co2e_kg)
    (h5 : spec.altar_routes.any (fun r => eqIgnoreAsciiCase r route) = false)
    (hmin : ∀ minimum, lookupAssoc subject spec.per_subject_minimums = some minimum →
      ¬ ((lookupAssoc subject m).getD EcoEnvelope.default).max_daily_kwh +
          demand.max_daily_kwh < minimum.max_daily_kwh)
    (hv : viable demand = true) :
    check_route spec roh viable m subject route demand =
      (Except.ok (), setEntry subject
        (addEnv ((lookupAssoc subject m).getD EcoEnvelope.default) demand)
        (entryInit subject m)) := by
  cases hm : lookupAssoc subject spec.per_subject_minimums with
  | none => simp [check_route, h1, h2, h3, h4, h5, hm, hv]
  | some minimum => simp [check_route, h1, h2, h3, h4, h5, hm, hv, hmin minimum hm]

end EcoGuard
lemma validate_from_iff (hash : String → String) (events : List ChurchLedger.DeedEvent) :
    ∀ prev, ChurchLedger.validate_ledger_from hash prev events = true ↔
      ((∀ p ∈ List.zip events (prev :: events.map fun e => e.self_hash),
          p.1.prev_hash = p.2) ∧
       (∀ e ∈ events, e.self_hash = hash (ChurchLedger.canonical_json e))) := by
  induction events with
  | nil =>
    intro prev
    simp [ChurchLedger.validate_ledger_from]
  | cons e rest ih =>
    intro prev
    by_cases h1 : e.prev_hash = prev
    · by_cases h2 : e.self_hash = hash (ChurchLedger.canonical_json e)
      · simp [ChurchLedger.validate_ledger_from, ChurchLedger.compute_self_hash, h1, h2, ih]
      · simp [ChurchLedger.validate_ledger_from, ChurchLedger.compute_self_hash, h1]
        constructor
        · rintro ⟨hc, -⟩
          exact absurd hc.symm h2
        · rintro ⟨-, hc, -⟩
          exact absurd hc h2
    · simp [ChurchLedger.validate_ledger_from, h1]

namespace EcoGuard

lemma check_route_present_lookup (spec : EcoFairnessSpec) (roh : ℚ)
    (viable : EcoEnvelope → Bool) (m : UsageMap) (subject route : String)
    (demand : EcoEnvelope) (u₀ : EcoEnvelope)
    (h : lookupAssoc subject m = some u₀) :
    lookupAssoc subject (check_route spec roh viable m subject route demand).2 =
      some (if (check_route spec roh viable m subject route demand).1 = Except.ok ()
            then addEnv u₀ demand else u₀) := by
  have hei : entryInit subject m = m := by simp [entryInit, h]
  by_cases h1 : roh > spec.global_roh_ceiling
  · rw [cr_roh_eq spec roh viable m subject route demand h1]
    simp [h]
  by_cases h2 : demand.max_power_watts > (effectiveEnvelope spec route).max_power_watts
  · rw [cr_power_eq spec roh viable m subject route demand h1 h2]
    simp [h]
  by_cases h3 : demand.max_daily_kwh > (effectiveEnvelope spec route).max_daily_kwh
  · rw [cr_kwh_eq spec roh viable m subject route demand h1 h2 h3]
    simp [h]
  by_cases h4 : demand.max_co2e_kg > (effectiveEnvelope spec route).max_co2e_kg
  · rw [cr_co2e_eq spec roh viable m subject route demand h1 h2 h3 h4]
    simp [h]
  by_cases h5 : spec.altar_routes.any (fun r => eqIgnoreAsciiCase r route) = true
  · rw [cr_altar_eq spec roh viable m subject route demand h1 h2 h3 h4 h5]
    simp [h]
  have h5f : spec.altar_routes.any (fun r => eqIgnoreAsciiCase r route) = false :=
    Bool.not_eq_true _ ▸ eq_false_of_ne_true h5
  cases hm : lookupAssoc subject spec.per_subject_minimums with
  | some minimum =>
    by_cases hfail : ((lookupAssoc subject m).getD EcoEnvelope.default).max_daily_kwh +
        demand.max_daily_kwh < minimum.max_daily_kwh
    · rw [cr_min_eq spec roh viable m subject route demand minimum h1 h2 h3 h4 h5f hm hfail]
      simp [hei, h]
    · have hmin : ∀ minimum', lookupAssoc subject spec.per_subject_minimums = some minimum' →
        ¬ ((lookupAssoc subject m).getD EcoEnvelope.default).max_daily_kwh +
            demand.max_daily_kwh < minimum'.max_daily_kwh := by
        intro m' hm'
        rw [hm] at hm'
        cases hm'
        exact hfail
      cases hv : viable demand with
      | true =>
        rw [cr_ok_eq spec roh viable m subject route demand h1 h2 h3 h4 h5f hmin hv]
        simp [hei, h, lookup_setEntry_self]
      | false =>
        rw [cr_viab_eq spec roh viable m subject route demand h1 h2 h3 h4 h5f hmin hv]
        simp [hei, h]
  | none =>
    have hmin : ∀ minimum', lookupAssoc subject spec.per_subject_minimums = some minimum' →
        ¬ ((lookupAssoc subject m).getD EcoEnvelope.default).max_daily_kwh +
            demand.max_daily_kwh < minimum'.max_daily_kwh := by
      intro m' hm'
      rw [hm] at hm'
      cases hm'
    cases hv : viable demand with
    | true =>
      rw [cr_ok_eq spec roh viable m subject route demand h1 h2 h3 h4 h5f hmin hv]
      simp [hei, h, lookup_setEntry_self]
    | false =>
      rw [cr_viab_eq spec roh viable m subject route demand h1 h2 h3 h4 h5f hmin hv]
      simp [hei, h]

end EcoGuard

/-- C1: `validate_ledger` returns `true` iff every record's `prev_hash`
equals its predecessor's `self_hash` (the genesis sentinel for the first
record) and every record's `self_hash` equals the digest of its canonical
form; any single broken link makes the result `false`. -/
theorem c1_validate_ledger_iff_chain (hash : String → String)
    (events : List ChurchLedger.DeedEvent) :
    ChurchLedger.validate_ledger hash events = true ↔
      ChurchLedger.chain_spec hash events := by
  simpa [ChurchLedger.validate_ledger, ChurchLedger.chain_spec] using
    validate_from_iff hash events genesisSentinel

/-- C8 (amended): the church-ledger canonicaliser `canonical_json` serialises
every field except `self_hash`, so two records whose fields agree except
possibly on `self_hash` have equal canonical forms and equal digests under
any digest function.  (The amendment: this holds for
`ChurchLedger.canonical_json`; the `church_of_fear_ledger` variant hashes the
full serialisation including `self_hash`, refuting the claim there — see the
counterexample.) -/
theorem c8_canonical_ignores_self_hash (hash : String → String)
    (e₁ e₂ : ChurchLedger.DeedEvent)
    (h : e₁.event_id = e₂.event_id ∧ e₁.timestamp = e₂.timestamp ∧
         e₁.prev_hash = e₂.prev_hash ∧ e₁.actor_id = e₂.actor_id ∧
         e₁.target_ids = e₂.target_ids ∧ e₁.deed_type = e₂.deed_type ∧
         e₁.tags = e₂.tags ∧ e₁.context_json = e₂.context_json ∧
         e₁.ethics_flags = e₂.ethics_flags ∧
         e₁.life_harm_flag = e₂.life_harm_flag) :
    ChurchLedger.canonical_json e₁ = ChurchLedger.canonical_json e₂ ∧
    ChurchLedger.compute_self_hash hash e₁ = ChurchLedger.compute_self_hash hash e₂ := by
  obtain ⟨h1, h2, h3, h4, h5, h6, h7, h8, h9, h10⟩ := h
  have hc : ChurchLedger.canonical_json e₁ = ChurchLedger.canonical_json e₂ := by
    unfold ChurchLedger.canonical_json
    rw [h1, h2, h3, h4, h5, h6, h7, h8, h9, h10]
  exact ⟨hc, by simp [ChurchLedger.compute_self_hash, hc]⟩

/-- Witness for C8: the amended theorem applied at two concrete records that
differ exactly in `self_hash`. -/
theorem c8_witness :
    ChurchLedger.canonical_json sampleDeed = ChurchLedger.canonical_json sampleDeedAlt ∧
    ChurchLedger.compute_self_hash (fun s => s) sampleDeed =
      ChurchLedger.compute_self_hash (fun s => s) sampleDeedAlt :=
  c8_canonical_ignores_self_hash (fun s => s) sampleDeed sampleDeedAlt
    ⟨rfl, rfl, rfl, rfl, rfl, rfl, rfl, rfl, rfl, rfl⟩

/-- Counterexample for C8 as stated: in `church_of_fear_ledger`,
`compute_self_hash` digests `serde_json::to_string(self)`, which serialises
`self_hash` too; two records identical in all other fields produce different
hash inputs, so the canonical form (and hence the digest input) depends on
`self_hash` there. -/
theorem c8_counterexample :
    fearDeed.event_id = fearDeedAlt.event_id ∧
    fearDeed.timestamp = fearDeedAlt.timestamp ∧
    fearDeed.prev_hash = fearDeedAlt.prev_hash ∧
    fearDeed.actor_id = fearDeedAlt.actor_id ∧
    fearDeed.target_ids = fearDeedAlt.target_ids ∧
    fearDeed.deed_type = fearDeedAlt.deed_type ∧
    fearDeed.tags = fearDeedAlt.tags ∧
    fearDeed.ethics_flags = fearDeedAlt.ethics_flags ∧
    fearDeed.life_harm_flag = fearDeedAlt.life_harm_flag ∧
    fearDeed.self_hash ≠ fearDeedAlt.self_hash ∧
    FearLedger.serde_json_string fearDeed ≠ FearLedger.serde_json_string fearDeedAlt := by
  refine ⟨rfl, rfl, rfl, rfl, rfl, rfl, rfl, rfl, rfl, ?_, ?_⟩
  · with_unfolding_all decide
  · with_unfolding_all decide

/-- Counterexample for C7 as stated: a record with non-empty `ethics_flags`
(and `life_harm_flag = false`) scores `0.85 - 0.15 = 0.7` under
`moral_position_score`, not zero. -/
theorem c7_counterexample :
    ethicsFlaggedDeed.ethics_flags ≠ [] ∧
    ChurchLedger.moral_position_score ethicsFlaggedDeed = 7/10 ∧
    ChurchLedger.moral_position_score ethicsFlaggedDeed ≠ 0 := by
  refine ⟨?_, ?_, ?_⟩
  · with_unfolding_all decide
  · with_unfolding_all decide
  · with_unfolding_all decide

/-- C7 (amended): the advisory CHURCH recommendation
(`FearLedger.church_recommendation`) is exactly zero for every record with
`life_harm_flag = true` or non-empty `ethics_flags`, regardless of its
`deed_type` and `tags`.  (Amendment: the church-ledger
`moral_position_score` does not satisfy the claim — see the
counterexample.) -/
theorem c7_harm_or_ethics_zero (e : FearLedger.DeedEvent)
    (h : e.life_harm_flag = true ∨ e.ethics_flags ≠ []) :
    FearLedger.church_recommendation e = 0 := by
  unfold FearLedger.church_recommendation
  rcases h with h | h
  · simp [h]
  · by_cases hl : e.life_harm_flag <;> simp [hl, h]

/-- Witness for C7: the amended theorem applied at a concrete harm-flagged
record with a rewarded category. -/
theorem c7_witness : FearLedger.church_recommendation harmDeed = 0 :=
  c7_harm_or_ethics_zero harmDeed (Or.inl rfl)

/-- C6 (amended): `validate_new_event` accepts exactly the records with
`life_harm_flag = false`, empty `ethics_flags`, and either
`expected_prev_hash = "genesis"` (the literal string, not the 64-zero
sentinel) or `prev_hash = expected_prev_hash`; it never inspects
`self_hash`. -/
theorem c6_validate_new_event_iff (e : FearLedger.DeedEvent)
    (expected_prev_hash : String) :
    FearLedger.validate_new_event e expected_prev_hash = Except.ok () ↔
      (e.life_harm_flag = false ∧ e.ethics_flags = [] ∧
       (expected_prev_hash = "genesis" ∨ e.prev_hash = expected_prev_hash)) := by
  unfold FearLedger.validate_new_event
  by_cases h1 : e.life_harm_flag <;>
    by_cases h2 : e.ethics_flags = [] <;>
      by_cases h3 : expected_prev_hash = "genesis" <;>
        by_cases h4 : e.prev_hash = expected_prev_hash <;>
          simp [h1, h2, h3, h4]

/-- Counterexample for C6 as stated: `validate_new_event` returns `Ok` for a
record whose `self_hash` is not the digest of its serialisation (digest
instantiated at a concrete function; the function is never consulted by the
validator, which performs no self-hash check at all). -/
theorem c6_counterexample :
    FearLedger.validate_new_event fearDeedBadHash "p" = Except.ok () ∧
    fearDeedBadHash.self_hash ≠
      FearLedger.compute_self_hash (fun _ => "") fearDeedBadHash := by
  refine ⟨?_, ?_⟩
  · with_unfolding_all decide
  · with_unfolding_all decide

/-- C2 (amended): admission checks exactly the power, daily-kWh and CO2e
dimensions against the effective ceiling, in that order: an admitted demand
satisfies those three bounds, and a violation of any of them is rejected
with the corresponding `BudgetExceeded` error (first violating dimension
reported).  Heat and water are not checked — see the counterexample. -/
theorem c2_ceiling_checks (spec : EcoGuard.EcoFairnessSpec) (roh : ℚ)
    (viable : EcoGuard.EcoEnvelope → Bool) (m : EcoGuard.UsageMap)
    (subject route : String) (demand : EcoGuard.EcoEnvelope)
    (h1 : ¬ roh > spec.global_roh_ceiling) :
    ((EcoGuard.check_route spec roh viable m subject route demand).1 = Except.ok () →
      demand.max_power_watts ≤ (EcoGuard.effectiveEnvelope spec route).max_power_watts ∧
      demand.max_daily_kwh ≤ (EcoGuard.effectiveEnvelope spec route).max_daily_kwh ∧
      demand.max_co2e_kg ≤ (EcoGuard.effectiveEnvelope spec route).max_co2e_kg) ∧
    (demand.max_power_watts > (EcoGuard.effectiveEnvelope spec route).max_power_watts →
      (EcoGuard.check_route spec roh viable m subject route demand).1 =
        Except.error (EcoGuard.GuardError.BudgetExceeded route "power"
          demand.max_power_watts (EcoGuard.effectiveEnvelope spec route).max_power_watts)) ∧
    (¬ demand.max_power_watts > (EcoGuard.effectiveEnvelope spec route).max_power_watts →
     demand.max_daily_kwh > (EcoGuard.effectiveEnvelope spec route).max_daily_kwh →
      (EcoGuard.check_route spec roh viable m subject route demand).1 =
        Except.error (EcoGuard.GuardError.BudgetExceeded route "kWh"
          demand.max_daily_kwh (EcoGuard.effectiveEnvelope spec route).max_daily_kwh)) ∧
    (¬ demand.max_power_watts > (EcoGuard.effectiveEnvelope spec route).max_power_watts →
     ¬ demand.max_daily_kwh > (EcoGuard.effectiveEnvelope spec route).max_daily_kwh →
     demand.max_co2e_kg > (EcoGuard.effectiveEnvelope spec route).max_co2e_kg →
      (EcoGuard.check_route spec roh viable m subject route demand).1 =
        Except.error (EcoGuard.GuardError.BudgetExceeded route "CO2e_kg"
          demand.max_co2e_kg (EcoGuard.effectiveEnvelope spec route).max_co2e_kg)) := by
  refine ⟨?_, ?_, ?_, ?_⟩
  · intro hok
    by_cases h2 : demand.max_power_watts > (EcoGuard.effectiveEnvelope spec route).max_power_watts
    · rw [EcoGuard.cr_power_eq spec roh viable m subject route demand h1 h2] at hok
      simp at hok
    by_cases h3 : demand.max_daily_kwh > (EcoGuard.effectiveEnvelope spec route).max_daily_kwh
    · rw [EcoGuard.cr_kwh_eq spec roh viable m subject route demand h1 h2 h3] at hok
      simp at hok
    by_cases h4 : demand.max_co2e_kg > (EcoGuard.effectiveEnvelope spec route).max_co2e_kg
    · rw [EcoGuard.cr_co2e_eq spec roh viable m subject route demand h1 h2 h3 h4] at hok
      simp at hok
    exact ⟨not_lt.mp h2, not_lt.mp h3, not_lt.mp h4⟩
  · intro h2
    rw [EcoGuard.cr_power_eq spec roh viable m subject route demand h1 h2]
  · intro h2 h3
    rw [EcoGuard.cr_kwh_eq spec roh viable m subject route demand h1 h2 h3]
  · intro h2 h3 h4
    rw [EcoGuard.cr_co2e_eq spec roh viable m subject route demand h1 h2 h3 h4]

/-- Witness for C2: the spec's own scenario — global ceiling 850 W, demand
900 W on a route with no override is rejected with the power dimension. -/
theorem c2_witness :
    (EcoGuard.check_route EcoGuard.EcoFairnessSpec.default 0 (fun _ => true) [] "s" "work"
        powerDemand900).1 =
      Except.error (EcoGuard.GuardError.BudgetExceeded "work" "power"
        powerDemand900.max_power_watts
        (EcoGuard.effectiveEnvelope EcoGuard.EcoFairnessSpec.default "work").max_power_watts) :=
  (c2_ceiling_checks EcoGuard.EcoFairnessSpec.default 0 (fun _ => true) [] "s" "work"
      powerDemand900 (by with_unfolding_all decide)).2.1 (by with_unfolding_all decide)

/-- Counterexample for C2 as stated: a demand exceeding the heat and water
ceilings (1000 against 45 heat and 15 water of the effective envelope) is
admitted — only power, kWh and CO2e are checked. -/
theorem c2_counterexample :
    (EcoGuard.check_route simpleSpec 0 (fun _ => true) [] "s" "work" heavyHeatDemand).1 =
      Except.ok () ∧
    heavyHeatDemand.max_heat_output >
      (EcoGuard.effectiveEnvelope simpleSpec "work").max_heat_output ∧
    heavyHeatDemand.max_water_liters >
      (EcoGuard.effectiveEnvelope simpleSpec "work").max_water_liters := by
  refine ⟨?_, ?_, ?_⟩ <;> with_unfolding_all decide

/-- C3 (amended): a `check_route` call on a configured governed (altar)
route never returns `Ok`; it returns `AltarRequiresEvolve` exactly when the
RoH ceiling and the three checked envelope dimensions pass (those checks
run first and report their own errors otherwise). -/
theorem c3_governed_never_ok (spec : EcoGuard.EcoFairnessSpec) (roh : ℚ)
    (viable : EcoGuard.EcoEnvelope → Bool) (m : EcoGuard.UsageMap)
    (subject route : String) (demand : EcoGuard.EcoEnvelope)
    (hgov : spec.altar_routes.any (fun r => EcoGuard.eqIgnoreAsciiCase r route) = true) :
    (EcoGuard.check_route spec roh viable m subject route demand).1 ≠ Except.ok () ∧
    (¬ roh > spec.global_roh_ceiling →
     ¬ demand.max_power_watts > (EcoGuard.effectiveEnvelope spec route).max_power_watts →
     ¬ demand.max_daily_kwh > (EcoGuard.effectiveEnvelope spec route).max_daily_kwh →
     ¬ demand.max_co2e_kg > (EcoGuard.effectiveEnvelope spec route).max_co2e_kg →
      (EcoGuard.check_route spec roh viable m subject route demand).1 =
        Except.error EcoGuard.GuardError.AltarRequiresEvolve) := by
  constructor
  · by_cases h1 : roh > spec.global_roh_ceiling
    · rw [EcoGuard.cr_roh_eq spec roh viable m subject route demand h1]
      simp
    by_cases h2 : demand.max_power_watts > (EcoGuard.effectiveEnvelope spec route).max_power_watts
    · rw [EcoGuard.cr_power_eq spec roh viable m subject route demand h1 h2]
      simp
    by_cases h3 : demand.max_daily_kwh > (EcoGuard.effectiveEnvelope spec route).max_daily_kwh
    · rw [EcoGuard.cr_kwh_eq spec roh viable m subject route demand h1 h2 h3]
      simp
    by_cases h4 : demand.max_co2e_kg > (EcoGuard.effectiveEnvelope spec route).max_co2e_kg
    · rw [EcoGuard.cr_co2e_eq spec roh viable m subject route demand h1 h2 h3 h4]
      simp
    rw [EcoGuard.cr_altar_eq spec roh viable m subject route demand h1 h2 h3 h4 hgov]
    simp
  · intro h1 h2 h3 h4
    rw [EcoGuard.cr_altar_eq spec roh viable m subject route demand h1 h2 h3 h4 hgov]

/-- Witness for C3: a zero demand on the governed route `"altar"` of the
default policy is rejected with `AltarRequiresEvolve`. -/
theorem c3_witness :
    (EcoGuard.check_route EcoGuard.EcoFairnessSpec.default 0 (fun _ => true) [] "s" "altar"
        EcoGuard.zeroEnv).1 =
      Except.error EcoGuard.GuardError.AltarRequiresEvolve :=
  (c3_governed_never_ok EcoGuard.EcoFairnessSpec.default 0 (fun _ => true) [] "s" "altar"
      EcoGuard.zeroEnv (by with_unfolding_all decide)).2
    (by with_unfolding_all decide) (by with_unfolding_all decide)
    (by with_unfolding_all decide) (by with_unfolding_all decide)

/-- Counterexample for C3 as stated ("always returns GovernedRouteBlocked"):
on the governed route `"altar"`, a 900 W demand exceeds the altar budget of
420 W and is rejected with `BudgetExceeded`, not `AltarRequiresEvolve` —
the ceiling checks run before the governed-route check. -/
theorem c3_counterexample :
    EcoGuard.EcoFairnessSpec.default.altar_routes.any
      (fun r => EcoGuard.eqIgnoreAsciiCase r "altar") = true ∧
    (EcoGuard.check_route EcoGuard.EcoFairnessSpec.default 0 (fun _ => true) [] "s" "altar"
        powerDemand900).1 =
      Except.error (EcoGuard.GuardError.BudgetExceeded "altar" "power" 900 420) ∧
    (EcoGuard.check_route EcoGuard.EcoFairnessSpec.default 0 (fun _ => true) [] "s" "altar"
        powerDemand900).1 ≠ Except.error EcoGuard.GuardError.AltarRequiresEvolve := by
  refine ⟨?_, ?_, ?_⟩ <;> with_unfolding_all decide

/-- C4 (amended): a rejected `check_route` call never adds the demand to any
usage entry; the usage map is left unchanged, except that a rejection at the
minimum-guarantee or viability step inserts a default-initialised entry for
a previously absent subject (the `or_insert_with` runs before those
checks). -/
theorem c4_rejection_leaves_usage (spec : EcoGuard.EcoFairnessSpec) (roh : ℚ)
    (viable : EcoGuard.EcoEnvelope → Bool) (m : EcoGuard.UsageMap)
    (subject route : String) (demand : EcoGuard.EcoEnvelope)
    (e : EcoGuard.GuardError)
    (h : (EcoGuard.check_route spec roh viable m subject route demand).1 = Except.error e) :
    (EcoGuard.check_route spec roh viable m subject route demand).2 = m ∨
    (EcoGuard.lookupAssoc subject m = none ∧
     (EcoGuard.check_route spec roh viable m subject route demand).2 =
       EcoGuard.setEntry subject EcoGuard.EcoEnvelope.default m) := by
  by_cases h1 : roh > spec.global_roh_ceiling
  · rw [EcoGuard.cr_roh_eq spec roh viable m subject route demand h1]
    exact Or.inl rfl
  by_cases h2 : demand.max_power_watts > (EcoGuard.effectiveEnvelope spec route).max_power_watts
  · rw [EcoGuard.cr_power_eq spec roh viable m subject route demand h1 h2]
    exact Or.inl rfl
  by_cases h3 : demand.max_daily_kwh > (EcoGuard.effectiveEnvelope spec route).max_daily_kwh
  · rw [EcoGuard.cr_kwh_eq spec roh viable m subject route demand h1 h2 h3]
    exact Or.inl rfl
  by_cases h4 : demand.max_co2e_kg > (EcoGuard.effectiveEnvelope spec route).max_co2e_kg
  · rw [EcoGuard.cr_co2e_eq spec roh viable m subject route demand h1 h2 h3 h4]
    exact Or.inl rfl
  by_cases h5 : spec.altar_routes.any (fun r => EcoGuard.eqIgnoreAsciiCase r route) = true
  · rw [EcoGuard.cr_altar_eq spec roh viable m subject route demand h1 h2 h3 h4 h5]
    exact Or.inl rfl
  have h5f : spec.altar_routes.any (fun r => EcoGuard.eqIgnoreAsciiCase r route) = false :=
    eq_false_of_ne_true h5
  have hstate : ∀ hrw : (EcoGuard.check_route spec roh viable m subject route demand).2 =
      EcoGuard.entryInit subject m,
      (EcoGuard.check_route spec roh viable m subject route demand).2 = m ∨
      (EcoGuard.lookupAssoc subject m = none ∧
       (EcoGuard.check_route spec roh viable m subject route demand).2 =
         EcoGuard.setEntry subject EcoGuard.EcoEnvelope.default m) := by
    intro hrw
    rcases hl : EcoGuard.lookupAssoc subject m with - | u
    · exact Or.inr ⟨rfl, by rw [hrw]; simp [EcoGuard.entryInit, hl]⟩
    · exact Or.inl (by rw [hrw]; simp [EcoGuard.entryInit, hl])
  cases hm : EcoGuard.lookupAssoc subject spec.per_subject_minimums with
  | some minimum =>
    by_cases hfail : ((EcoGuard.lookupAssoc subject m).getD
        EcoGuard.EcoEnvelope.default).max_daily_kwh + demand.max_daily_kwh <
        minimum.max_daily_kwh
    · exact hstate (by
        rw [EcoGuard.cr_min_eq spec roh viable m subject route demand minimum
          h1 h2 h3 h4 h5f hm hfail])
    · have hmin : ∀ minimum', EcoGuard.lookupAssoc subject spec.per_subject_minimums =
          some minimum' →
          ¬ ((EcoGuard.lookupAssoc subject m).getD
              EcoGuard.EcoEnvelope.default).max_daily_kwh + demand.max_daily_kwh <
            minimum'.max_daily_kwh := by
        intro m' hm'
        rw [hm] at hm'
        cases hm'
        exact hfail
      cases hv : viable demand with
      | true =>
        rw [EcoGuard.cr_ok_eq spec roh viable m subject route demand
          h1 h2 h3 h4 h5f hmin hv] at h
        simp at h
      | false =>
        exact hstate (by
          rw [EcoGuard.cr_viab_eq spec roh viable m subject route demand
            h1 h2 h3 h4 h5f hmin hv])
  | none =>
    have hmin : ∀ minimum', EcoGuard.lookupAssoc subject spec.per_subject_minimums =
        some minimum' →
        ¬ ((EcoGuard.lookupAssoc subject m).getD
            EcoGuard.EcoEnvelope.default).max_daily_kwh + demand.max_daily_kwh <
          minimum'.max_daily_kwh := by
      intro m' hm'
      rw [hm] at hm'
      cases hm'
    cases hv : viable demand with
    | true =>
      rw [EcoGuard.cr_ok_eq spec roh viable m subject route demand
        h1 h2 h3 h4 h5f hmin hv] at h
      simp at h
    | false =>
      exact hstate (by
        rw [EcoGuard.cr_viab_eq spec roh viable m subject route demand
          h1 h2 h3 h4 h5f hmin hv])

/-- Witness for C4: a viability-rejected call on an empty map satisfies the
amended conclusion. -/
theorem c4_witness :
    (EcoGuard.check_route simpleSpec 0 (fun _ => false) [] "s" "work" kwhDemand2).2 =
      ([] : EcoGuard.UsageMap) ∨
    (EcoGuard.lookupAssoc "s" ([] : EcoGuard.UsageMap) = none ∧
     (EcoGuard.check_route simpleSpec 0 (fun _ => false) [] "s" "work" kwhDemand2).2 =
       EcoGuard.setEntry "s" EcoGuard.EcoEnvelope.default []) :=
  c4_rejection_leaves_usage simpleSpec 0 (fun _ => false) [] "s" "work" kwhDemand2
    (EcoGuard.GuardError.ViabilityFailure "Eco/compute demand outside Tsafe viability kernel")
    (by with_unfolding_all decide)

/-- Counterexample for C4 as stated: a viability-rejected call for a fresh
subject does create a usage-ledger entry (initialised to the default
envelope), so not every rejection leaves the kernel state unchanged. -/
theorem c4_counterexample :
    (EcoGuard.check_route simpleSpec 0 (fun _ => false) [] "s" "work" kwhDemand2).1 =
      Except.error (EcoGuard.GuardError.ViabilityFailure
        "Eco/compute demand outside Tsafe viability kernel") ∧
    (EcoGuard.check_route simpleSpec 0 (fun _ => false) [] "s" "work" kwhDemand2).2 =
      [("s", EcoGuard.EcoEnvelope.default)] ∧
    (EcoGuard.check_route simpleSpec 0 (fun _ => false) [] "s" "work" kwhDemand2).2 ≠
      ([] : EcoGuard.UsageMap) := by
  refine ⟨?_, ?_, ?_⟩ <;> with_unfolding_all decide

/-- C10 (amended): for a subject absent from the usage map, every call that
passes the RoH, ceiling and governed-route checks — including calls then
rejected at the minimum-guarantee or viability step — inserts a usage entry
initialised to the default envelope (850 W, 18 kWh, 45 heat, 2.5 kg CO2e,
15 L water), not to zero; an admitted demand accumulates on top of those
defaults.  (Calls rejected earlier, e.g. on a governed route, insert
nothing — see the counterexample.) -/
theorem c10_default_initialisation (spec : EcoGuard.EcoFairnessSpec) (roh : ℚ)
    (viable : EcoGuard.EcoEnvelope → Bool) (m : EcoGuard.UsageMap)
    (subject route : String) (demand : EcoGuard.EcoEnvelope)
    (habs : EcoGuard.lookupAssoc subject m = none)
    (h1 : ¬ roh > spec.global_roh_ceiling)
    (h2 : ¬ demand.max_power_watts > (EcoGuard.effectiveEnvelope spec route).max_power_watts)
    (h3 : ¬ demand.max_daily_kwh > (EcoGuard.effectiveEnvelope spec route).max_daily_kwh)
    (h4 : ¬ demand.max_co2e_kg > (EcoGuard.effectiveEnvelope spec route).max_co2e_kg)
    (h5 : spec.altar_routes.any (fun r => EcoGuard.eqIgnoreAsciiCase r route) = false) :
    ((EcoGuard.check_route spec roh viable m subject route demand).1 = Except.ok () →
      EcoGuard.lookupAssoc subject
          (EcoGuard.check_route spec roh viable m subject route demand).2 =
        some (EcoGuard.addEnv EcoGuard.EcoEnvelope.default demand)) ∧
    ((EcoGuard.check_route spec roh viable m subject route demand).1 ≠ Except.ok () →
      EcoGuard.lookupAssoc subject
          (EcoGuard.check_route spec roh viable m subject route demand).2 =
        some EcoGuard.EcoEnvelope.default) := by
  have hei : EcoGuard.entryInit subject m =
      EcoGuard.setEntry subject EcoGuard.EcoEnvelope.default m := by
    simp [EcoGuard.entryInit, habs]
  cases hm : EcoGuard.lookupAssoc subject spec.per_subject_minimums with
  | some minimum =>
    by_cases hfail : ((EcoGuard.lookupAssoc subject m).getD
        EcoGuard.EcoEnvelope.default).max_daily_kwh + demand.max_daily_kwh <
        minimum.max_daily_kwh
    · rw [EcoGuard.cr_min_eq spec roh viable m subject route demand minimum
        h1 h2 h3 h4 h5 hm hfail]
      simp [hei, EcoGuard.lookup_setEntry_self]
    · have hmin : ∀ minimum', EcoGuard.lookupAssoc subject spec.per_subject_minimums =
          some minimum' →
          ¬ ((EcoGuard.lookupAssoc subject m).getD
              EcoGuard.EcoEnvelope.default).max_daily_kwh + demand.max_daily_kwh <
            minimum'.max_daily_kwh := by
        intro m' hm'
        rw [hm] at hm'
        cases hm'
        exact hfail
      cases hv : viable demand with
      | true =>
        rw [EcoGuard.cr_ok_eq spec roh viable m subject route demand h1 h2 h3 h4 h5 hmin hv]
        simp [hei, habs, EcoGuard.lookup_setEntry_self]
      | false =>
        rw [EcoGuard.cr_viab_eq spec roh viable m subject route demand h1 h2 h3 h4 h5 hmin hv]
        simp [hei, EcoGuard.lookup_setEntry_self]
  | none =>
    have hmin : ∀ minimum', EcoGuard.lookupAssoc subject spec.per_subject_minimums =
        some minimum' →
        ¬ ((EcoGuard.lookupAssoc subject m).getD
            EcoGuard.EcoEnvelope.default).max_daily_kwh + demand.max_daily_kwh <
          minimum'.max_daily_kwh := by
      intro m' hm'
      rw [hm] at hm'
      cases hm'
    cases hv : viable demand with
    | true =>
      rw [EcoGuard.cr_ok_eq spec roh viable m subject route demand h1 h2 h3 h4 h5 hmin hv]
      simp [hei, habs, EcoGuard.lookup_setEntry_self]
    | false =>
      rw [EcoGuard.cr_viab_eq spec roh viable m subject route demand h1 h2 h3 h4 h5 hmin hv]
      simp [hei, EcoGuard.lookup_setEntry_self]

/-- Witness for C10: a viability-rejected call for a fresh subject leaves
the subject's entry at the default envelope. -/
theorem c10_witness :
    EcoGuard.lookupAssoc "s"
        (EcoGuard.check_route simpleSpec 0 (fun _ => false) [] "s" "work" kwhDemand2).2 =
      some EcoGuard.EcoEnvelope.default :=
  (c10_default_initialisation simpleSpec 0 (fun _ => false) [] "s" "work" kwhDemand2
      (by with_unfolding_all decide) (by with_unfolding_all decide)
      (by with_unfolding_all decide) (by with_unfolding_all decide)
      (by with_unfolding_all decide) (by with_unfolding_all decide)).2
    (by with_unfolding_all decide)

/-- Counterexample for C10 as stated ("any checkAndCommit call ... inserts a
usage entry"): a call on a governed route is rejected before the entry
initialisation, and no usage entry is created for the fresh subject. -/
theorem c10_counterexample :
    EcoGuard.lookupAssoc "s" ([] : EcoGuard.UsageMap) = none ∧
    (EcoGuard.check_route EcoGuard.EcoFairnessSpec.default 0 (fun _ => true) [] "s" "altar"
        EcoGuard.zeroEnv).1 = Except.error EcoGuard.GuardError.AltarRequiresEvolve ∧
    EcoGuard.lookupAssoc "s"
        (EcoGuard.check_route EcoGuard.EcoFairnessSpec.default 0 (fun _ => true) [] "s" "altar"
          EcoGuard.zeroEnv).2 = none := by
  refine ⟨rfl, ?_, ?_⟩ <;> with_unfolding_all decide

/-- C5 (amended): for a subject whose usage entry holds `u₀`, any sequence
of `check_route` calls leaves the entry at `u₀` plus the dimension-wise
exact sum of the demands of exactly the `Ok` calls — no lost updates, and
rejected calls add nothing.  (For a subject that starts absent the baseline
`u₀` is the default envelope installed at the first call that reaches the
equity-floor step, not zero — see the counterexample and C9/C10.) -/
theorem c5_usage_is_sum_of_admitted (spec : EcoGuard.EcoFairnessSpec) (roh : ℚ)
    (viable : EcoGuard.EcoEnvelope → Bool) (subject : String)
    (calls : List (String × EcoGuard.EcoEnvelope)) :
    ∀ (m : EcoGuard.UsageMap) (u₀ : EcoGuard.EcoEnvelope),
      EcoGuard.lookupAssoc subject m = some u₀ →
      EcoGuard.lookupAssoc subject
          (EcoGuard.runCallsFor spec roh viable subject m calls).1 =
        some (EcoGuard.addEnv u₀
          (EcoGuard.okSum calls (EcoGuard.runCallsFor spec roh viable subject m calls).2)) := by
  induction calls with
  | nil =>
    intro m u₀ h
    simpa [EcoGuard.runCallsFor, EcoGuard.okSum, EcoGuard.addEnv_zeroEnv] using h
  | cons c cs ih =>
    intro m u₀ h
    have step := EcoGuard.check_route_present_lookup spec roh viable m subject c.1 c.2 u₀ h
    by_cases hc : (EcoGuard.check_route spec roh viable m subject c.1 c.2).1 = Except.ok ()
    · have h2 : EcoGuard.lookupAssoc subject
          (EcoGuard.check_route spec roh viable m subject c.1 c.2).2 =
          some (EcoGuard.addEnv u₀ c.2) := by
        rw [step]
        simp [hc]
      have hrec := ih (EcoGuard.check_route spec roh viable m subject c.1 c.2).2
        (EcoGuard.addEnv u₀ c.2) h2
      simp only [EcoGuard.runCallsFor, EcoGuard.okSum, hc, if_pos]
      simpa [EcoGuard.addEnv_assoc] using hrec
    · have h2 : EcoGuard.lookupAssoc subject
          (EcoGuard.check_route spec roh viable m subject c.1 c.2).2 = some u₀ := by
        rw [step]
        simp [hc]
      have hrec := ih (EcoGuard.check_route spec roh viable m subject c.1 c.2).2 u₀ h2
      simp only [EcoGuard.runCallsFor, EcoGuard.okSum, hc, if_neg]
      simpa using hrec

/-- Witness for C5: a subject present with zero usage admits one 2 kWh call
and ends at exactly the sum of the admitted demands. -/
theorem c5_witness :
    EcoGuard.lookupAssoc "s"
        (EcoGuard.runCallsFor simpleSpec 0 (fun _ => true) "s"
          [("s", EcoGuard.zeroEnv)] [("work", kwhDemand2)]).1 =
      some (EcoGuard.addEnv EcoGuard.zeroEnv
        (EcoGuard.okSum [("work", kwhDemand2)]
          (EcoGuard.runCallsFor simpleSpec 0 (fun _ => true) "s"
            [("s", EcoGuard.zeroEnv)] [("work", kwhDemand2)]).2)) :=
  c5_usage_is_sum_of_admitted simpleSpec 0 (fun _ => true) "s" [("work", kwhDemand2)]
    [("s", EcoGuard.zeroEnv)] EcoGuard.zeroEnv (by with_unfolding_all decide)

/-- Counterexample for C5 as stated: for a fresh subject, a single admitted
zero demand leaves recorded usage at the default envelope, not at the
dimension-wise sum (zero) of the admitted demands. -/
theorem c5_counterexample :
    (EcoGuard.runCallsFor simpleSpec 0 (fun _ => true) "s" [] [("work", EcoGuard.zeroEnv)]).2 =
      [Except.ok ()] ∧
    EcoGuard.okSum [("work", EcoGuard.zeroEnv)] [Except.ok ()] = EcoGuard.zeroEnv ∧
    EcoGuard.lookupAssoc "s"
        (EcoGuard.runCallsFor simpleSpec 0 (fun _ => true) "s" []
          [("work", EcoGuard.zeroEnv)]).1 ≠ some EcoGuard.zeroEnv ∧
    EcoGuard.lookupAssoc "s"
        (EcoGuard.runCallsFor simpleSpec 0 (fun _ => true) "s" []
          [("work", EcoGuard.zeroEnv)]).1 = some EcoGuard.EcoEnvelope.default := by
  refine ⟨?_, ?_, ?_, ?_⟩ <;> with_unfolding_all decide

/-- C9: evaluation of the spec's minimum-guarantee scenario on the code.
With a 5 kWh guarantee for a fresh subject, three 2 kWh admissions all
succeed (as the claim states), but the recorded usage afterwards is
24 kWh — the entry was initialised to the default envelope's 18 kWh, not to
the claimed starting usage of 0 — so the final usage is not 6 kWh. -/
theorem c9_scenario_evaluation :
    (EcoGuard.runCallsFor guaranteeSpec 0 (fun _ => true) "s" []
        [("work", kwhDemand2), ("work", kwhDemand2), ("work", kwhDemand2)]).2 =
      [Except.ok (), Except.ok (), Except.ok ()] ∧
    EcoGuard.lookupAssoc "s"
        (EcoGuard.runCallsFor guaranteeSpec 0 (fun _ => true) "s" []
          [("work", kwhDemand2), ("work", kwhDemand2), ("work", kwhDemand2)]).1 =
      some { max_power_watts := 850, max_daily_kwh := 24, max_heat_output := 45,
             max_co2e_kg := 5/2, max_water_liters := 15 } ∧
    (EcoGuard.lookupAssoc "s"
        (EcoGuard.runCallsFor guaranteeSpec 0 (fun _ => true) "s" []
          [("work", kwhDemand2), ("work", kwhDemand2), ("work", kwhDemand2)]).1).map
        (fun u => u.max_daily_kwh) ≠ some 6 := by
  refine ⟨?_, ?_, ?_⟩ <;> with_unfolding_all decide
